import Mathlib

/-!
Shallow embedding of the maguro repository (src/lib.rs, src/dash/mod.rs,
src/bin/main.rs) and proofs about its specification.

Machine integers (u32, u8) are modelled as Nat / UInt8; no arithmetic that can
overflow is performed by the modelled code (only comparisons and
concatenation).  mime::Mime and Duration values are carried as String / Nat
fields; the modelled operations never inspect them.  Network transports are
modelled as functions from a URL to the finite list of body chunks the
response yields, exactly the interface the code consumes.
-/

namespace Maguro

/-! ### DASH manifest data model (src/dash/mod.rs) -/

/-- SegmentURL element: a single relative media reference. -/
structure SegmentURL where
  media : String

/-- Initialization element: the single initialization source URL. -/
structure Initialization where
  source_url : String

/-- SegmentList element: one Initialization and the ordered media SegmentURLs. -/
structure SegmentList where
  initialization : Initialization
  segment_urls : List SegmentURL

/-- Role element of an AdaptationSet. -/
structure Role where
  scheme_id_uri : String
  value : String

/-- Representation struct, fields in source order.  It is recursive through
sub_representations (Option of Vec of Representation in the source), hence an
inductive with explicit accessors below. -/
inductive Representation where
  | mk
      (profiles : Option String)
      (width : Option Nat)
      (height : Option Nat)
      (sar : Option String)
      (frame_rate : Option Nat)
      (mime_type : Option String)
      (base_urls : Option (List String))
      (sub_representations : Option (List Representation))
      (segment_base : Option SegmentURL)
      (segment_list : Option SegmentList)
      (segment_template : Option SegmentURL)
      (id : String)
      (bandwidth : Nat)
      (quality_ranking : Option Nat)
      (dependency_id : Option String)
      (media_stream_structure_id : Option String)
      : Representation

/-- Accessor for the BaseURL subelements (declared Option of Vec of String). -/
def Representation.base_urls : Representation → Option (List String)
  | .mk _ _ _ _ _ _ bu _ _ _ _ _ _ _ _ _ => bu

/-- Accessor for the SegmentBase subelement. -/
def Representation.segment_base : Representation → Option SegmentURL
  | .mk _ _ _ _ _ _ _ _ sb _ _ _ _ _ _ _ => sb

/-- Accessor for the SegmentList subelement. -/
def Representation.segment_list : Representation → Option SegmentList
  | .mk _ _ _ _ _ _ _ _ _ sl _ _ _ _ _ _ => sl

/-- Accessor for the SegmentTemplate subelement. -/
def Representation.segment_template : Representation → Option SegmentURL
  | .mk _ _ _ _ _ _ _ _ _ _ st _ _ _ _ _ => st

/-- Base URL the download functions read.  The body of segment_urls in the
source reads a scalar field named base_url, while the Representation struct
declares base_urls as an Option of a Vec of BaseURL elements; the scalar read
is modelled as the first BaseURL element, empty string when absent. -/
def Representation.base_url (r : Representation) : String :=
  match r.base_urls with
  | some (u :: _) => u
  | _ => ""

/-- Representation::segment_urls, translated from the source body: push
base_url / initialization.source_url, then base_url / media for every
SegmentURL of the SegmentList in document order.  The source reads the
segment_list field with no unwrapping although the struct declares it
Option; the absent case is unreachable under the source's own field access
and is modelled as the empty list.  The return type, like the source's
Vec of String, has no error alternative. -/
def Representation.segment_urls (r : Representation) : List String :=
  match r.segment_list with
  | some sl =>
      (r.base_url ++ "/" ++ sl.initialization.source_url) ::
        sl.segment_urls.map (fun s => r.base_url ++ "/" ++ s.media)
  | none => []

/-- AdaptationSet element, fields in source order. -/
structure AdaptationSet where
  segment_alignment : Option Bool
  id : Option Nat
  mime_type : Option String
  subsegment_alignment : Option Bool
  role : Option Role
  representations : List Representation

/-- Period element: its AdaptationSets in document order. -/
structure Period where
  adaptation_sets : List AdaptationSet

/-- Manifest (MPD root).  The struct declares periods as a Vec of Period. -/
structure Manifest where
  periods : List Period
  mpd_type : String

/-- Manifest::streams.  The source body clones self.period.adaptation_sets,
reading a scalar period field, while the Manifest struct declares
periods as a Vec of Period; the scalar read is modelled as the first
Period of the vector, with no AdaptationSets when the vector is empty.
It never touches Periods past the first one. -/
def Manifest.streams (m : Manifest) : List AdaptationSet :=
  match m.periods with
  | [] => []
  | p :: _ => p.adaptation_sets

/-! ### Format catalog (src/lib.rs) -/

/-- Format struct, fields in source order.  mime_type is carried as the
string the Mime was parsed from; approx_duration in milliseconds. -/
structure Format where
  itag : Nat
  url : String
  width : Option Nat
  height : Option Nat
  mime_type : String
  content_length : Option Nat
  quality : String
  fps : Option Nat
  approx_duration : Option Nat
deriving DecidableEq

/-- PartialEq for Format: self.itag.eq(other.itag). -/
def Format.beq (a b : Format) : Bool :=
  a.itag == b.itag

/-- Ord for Format: self.itag.cmp(other.itag). -/
def Format.cmp (a b : Format) : Ordering :=
  compare a.itag b.itag

/-- Ordering relation induced by Ord for Format: cmp is not Greater,
which on Nat keys is itag less-or-equal. -/
def formatLe (a b : Format) : Prop :=
  a.itag ≤ b.itag

instance : DecidableRel formatLe :=
  fun a b => inferInstanceAs (Decidable (a.itag ≤ b.itag))

instance : IsTotal Format formatLe :=
  ⟨fun a b => Nat.le_total a.itag b.itag⟩

instance : IsTrans Format formatLe :=
  ⟨fun _ _ _ hab hbc => Nat.le_trans hab hbc⟩

/-- Vec::sort as used on Vec of Format: a stable sort by the Ord impl
(itag ascending).  A stable sort for a total preorder has a unique result,
modelled here by insertion sort. -/
def sortFormats (l : List Format) : List Format :=
  List.insertionSort formatLe l

/-- StreamingData struct: expiry, an optional progressive format list and
the adaptive format list. -/
structure StreamingData where
  expires_in_seconds : Nat
  formats : Option (List Format)
  adaptive_formats : List Format

/-- VideoDetails struct.  The source field named with the Rust keyword
private is modelled as is_private. -/
structure VideoDetails where
  video_id : String
  title : String
  author : String
  approx_length : Option Nat
  views : Nat
  is_private : Bool
  live : Bool

/-- InfoResponse struct: streamingData and videoDetails. -/
structure InfoResponse where
  streaming_data : StreamingData
  video_details : VideoDetails

/-- InfoResponse::formats: clone of the progressive list, sorted, when
present. -/
def InfoResponse.formats (r : InfoResponse) : Option (List Format) :=
  match r.streaming_data.formats with
  | some s => some (sortFormats s)
  | none => none

/-- InfoResponse::adaptive_formats: clone of the adaptive list, sorted. -/
def InfoResponse.adaptive_formats (r : InfoResponse) : List Format :=
  sortFormats r.streaming_data.adaptive_formats

/-- InfoResponse::all_formats: the sorted progressive list chained with the
sorted adaptive list when the former is present, else the sorted adaptive
list alone. -/
def InfoResponse.all_formats (r : InfoResponse) : List Format :=
  match r.formats with
  | some fmts => fmts ++ r.adaptive_formats
  | none => r.adaptive_formats

/-! ### Retrieval engine (src/lib.rs, src/dash/mod.rs)

A transport maps a URL to the finite sequence of body chunks its response
yields, in arrival order; the sink is the list of bytes written so far. -/

/-- One arrived body chunk of raw bytes. -/
abbrev Chunk := List UInt8

/-- A mock of the hyper client: chunks yielded per requested URL. -/
abbrev Transport := String → List Chunk

/-- Representation::download: for each segment URL in order, GET it and
write each arrived chunk to the writer in arrival order. -/
def Representation.download (transport : Transport) (r : Representation)
    (writer : List UInt8) : List UInt8 :=
  r.segment_urls.foldl
    (fun acc url => (transport url).foldl (fun a c => a ++ c) acc) writer

/-- Loop body of Format::to_vec_callback: for each arrived chunk, call
on_chunk with the chunk bytes, propagating its error with the try operator,
then extend the accumulated vector.  Returns the result together with the
list of payloads on_chunk was invoked with. -/
def to_vec_loop {E : Type} (onChunk : Chunk → Except E Unit) :
    List Chunk → List UInt8 → Except E (List UInt8) × List Chunk
  | [], v => (Except.ok v, [])
  | c :: rest, v =>
    match onChunk c with
    | Except.error e => (Except.error e, [c])
    | Except.ok _ =>
      let p := to_vec_loop onChunk rest (v ++ c)
      (p.1, c :: p.2)

/-- Format::to_vec_callback: stream the single URL's body, invoking
on_chunk per chunk, accumulating the bytes into a vector. -/
def Format.to_vec_callback {E : Type} (transport : Transport)
    (onChunk : Chunk → Except E Unit) (f : Format) : Except E (List UInt8) :=
  (to_vec_loop onChunk (transport f.url) []).1

/-- Trace of on_chunk invocations made by Format::to_vec_callback, in
order, each with the payload it was passed. -/
def Format.on_chunk_calls {E : Type} (transport : Transport)
    (onChunk : Chunk → Except E Unit) (f : Format) : List Chunk :=
  (to_vec_loop onChunk (transport f.url) []).2

/-- Format::to_vec: to_vec_callback with the closure that always returns
Ok(()). -/
def Format.to_vec (E : Type) (transport : Transport) (f : Format) :
    Except E (List UInt8) :=
  Format.to_vec_callback transport (fun _ => Except.ok ()) f

/-! ### CLI download loop (src/bin/main.rs) -/

/-- Format selection in main: with a -f value, find the format whose itag
prints equal to it; without, take the last format of the list. -/
def chosen (flag : Option String) (formats : List Format) : Option Format :=
  match flag with
  | some fmt => formats.find? (fun f => toString f.itag == fmt)
  | none => formats.getLast?

/-- Observable side effects of the per-video download loop body in main,
in program order. -/
inductive Event where
  | createFile (name : String)
  | logError (msg : String)
  | exitProcess (code : Nat)
  | downloadFormat (itag : Nat)
  | writeFile (name : String)
deriving DecidableEq

/-- Per-video body of the download loop in main: open the destination with
create(true), compute all_formats, select per the -f flag; on a missing
selection log the error and exit with code 1, otherwise download the chosen
format and write the bytes out. -/
def downloadOne (flag : Option String) (ext : String) (resp : InfoResponse) :
    List Event :=
  Event.createFile (resp.video_details.video_id ++ "." ++ ext) ::
    match chosen flag resp.all_formats with
    | some f =>
        [Event.downloadFormat f.itag,
         Event.writeFile (resp.video_details.video_id ++ "." ++ ext)]
    | none =>
        [Event.logError "Failed to find selected itag!", Event.exitProcess 1]

/-! ### Concrete instances used by witnesses and counterexamples -/

/-- A video AdaptationSet with id 1. -/
def asetA : AdaptationSet := ⟨some true, some 1, some "video/mp4", none, none, []⟩

/-- An audio AdaptationSet with id 2. -/
def asetB : AdaptationSet := ⟨some true, some 2, some "audio/mp4", none, none, []⟩

/-- A parsed manifest holding two Periods with one AdaptationSet each. -/
def mTwoPeriods : Manifest := ⟨[⟨[asetA]⟩, ⟨[asetB]⟩], "static"⟩

/-- A SegmentList with two media segments. -/
def slTwo : SegmentList := ⟨⟨"init.mp4"⟩, [⟨"seg1.m4s"⟩, ⟨"seg2.m4s"⟩]⟩

/-- A Representation addressed by slTwo under base URL http://base. -/
def repTwo : Representation :=
  .mk none (some 1280) (some 720) none (some 24) (some "video/mp4")
    (some ["http://base"]) none none (some slTwo) none "22" 1000 none none none

/-- A three-segment SegmentList for the retrieval example. -/
def slSeg : SegmentList := ⟨⟨"init"⟩, [⟨"s1"⟩, ⟨"s2"⟩]⟩

/-- A Representation whose three segment URLs are b/init, b/s1, b/s2. -/
def repSeg : Representation :=
  .mk none none none none none none (some ["b"]) none none (some slSeg) none
    "r1" 800 none none none

/-- Mock transport yielding chunks A,B then C then D,E for the three
segment URLs of repSeg. -/
def trSeg : Transport := fun u =>
  if u = "b/init" then [[65], [66]]
  else if u = "b/s1" then [[67]]
  else if u = "b/s2" then [[68], [69]]
  else []

/-- Mock transport yielding the five chunks A,B,C,D,E for any URL. -/
def trFlat : Transport := fun _ => [[65], [66], [67], [68], [69]]

/-- A Format downloaded through the flat path. -/
def fmtU : Format := ⟨251, "u", none, none, "audio/webm", some 5, "tiny", none, none⟩

/-- Callback that always succeeds. -/
def okCb : Chunk → Except String Unit := fun _ => Except.ok ()

/-- Callback that fails on the chunk C and succeeds on every other chunk. -/
def errCb : Chunk → Except String Unit :=
  fun c => if c = [67] then Except.error "stop" else Except.ok ()

/-- Progressive format with itag 18. -/
def fmt18 : Format :=
  ⟨18, "http://p18", some 640, some 360, "video/mp4", some 1000, "medium", some 24, some 1⟩

/-- Progressive format with itag 22. -/
def fmt22 : Format :=
  ⟨22, "http://p22", some 1280, some 720, "video/mp4", some 2000, "hd720", some 24, some 1⟩

/-- Adaptive format with itag 136. -/
def fmt136 : Format :=
  ⟨136, "http://a136", some 1280, some 720, "video/mp4", none, "hd720", some 24, none⟩

/-- Adaptive format with itag 137. -/
def fmt137 : Format :=
  ⟨137, "http://a137", some 1920, some 1080, "video/mp4", none, "hd1080", some 24, none⟩

/-- Adaptive format with itag 140. -/
def fmt140 : Format :=
  ⟨140, "http://a140", none, none, "audio/mp4", none, "tiny", none, none⟩

/-- An InfoResponse with 2 progressive and 3 adaptive formats. -/
def respFive : InfoResponse :=
  ⟨⟨3600, some [fmt22, fmt18], [fmt137, fmt140, fmt136]⟩,
   ⟨"v5", "t", "a", none, 3, false, false⟩⟩

/-- Adaptive format with itag 50. -/
def fmt50 : Format :=
  ⟨50, "http://a50", none, none, "audio/mp4", none, "tiny", none, none⟩

/-- Progressive format with itag 100. -/
def fmt100 : Format :=
  ⟨100, "http://p100", some 1920, some 1080, "video/mp4", none, "hd1080", some 30, none⟩

/-- An InfoResponse whose highest itag (100) is progressive while its
adaptive list holds only itag 50. -/
def respMix : InfoResponse :=
  ⟨⟨3600, some [fmt100], [fmt50]⟩, ⟨"v6", "t", "a", none, 3, false, false⟩⟩

/-- An InfoResponse owning only the single adaptive format with itag 50. -/
def respOnly50 : InfoResponse :=
  ⟨⟨3600, none, [fmt50]⟩, ⟨"v9", "t9", "a9", none, 1, false, false⟩⟩

/-! ### Helper lemmas shared by the claim theorems -/

theorem foldl_append_eq_join (l : List (List UInt8)) (acc : List UInt8) :
    l.foldl (fun a c => a ++ c) acc = acc ++ l.flatten := by
  induction l generalizing acc with
  | nil => simp
  | cons c t ih => simp [ih, List.append_assoc]

theorem download_foldl_eq_join (transport : Transport) (urls : List String)
    (w : List UInt8) :
    urls.foldl (fun acc url => (transport url).foldl (fun a c => a ++ c) acc) w
      = w ++ (urls.map (fun u => (transport u).flatten)).flatten := by
  induction urls generalizing w with
  | nil => simp
  | cons u t ih =>
      rw [List.foldl_cons, foldl_append_eq_join, ih]
      simp [List.append_assoc]

theorem to_vec_loop_ok {E : Type} (onChunk : Chunk → Except E Unit)
    (hok : ∀ c, onChunk c = Except.ok ()) :
    ∀ (chunks : List Chunk) (v : List UInt8),
      to_vec_loop onChunk chunks v = (Except.ok (v ++ chunks.flatten), chunks) := by
  intro chunks
  induction chunks with
  | nil => intro v; simp [to_vec_loop]
  | cons c rest ih => intro v; simp [to_vec_loop, hok c, ih, List.append_assoc]

theorem to_vec_loop_error {E : Type} (onChunk : Chunk → Except E Unit) (e : E) :
    ∀ (pre : List Chunk) (c : Chunk) (rest : List Chunk) (v : List UInt8),
      (∀ x ∈ pre, onChunk x = Except.ok ()) →
      onChunk c = Except.error e →
      to_vec_loop onChunk (pre ++ c :: rest) v = (Except.error e, pre ++ [c]) := by
  intro pre
  induction pre with
  | nil => intro c rest v _ hc; simp [to_vec_loop, hc]
  | cons a t ih =>
      intro c rest v hok hc
      have ha : onChunk a = Except.ok () := hok a (by simp)
      simp [to_vec_loop, ha, ih c rest _ (fun x hx => hok x (by simp [hx])) hc]

theorem sortFormats_sorted (l : List Format) :
    List.Sorted formatLe (sortFormats l) :=
  List.sorted_insertionSort formatLe l

theorem sortFormats_perm (l : List Format) : (sortFormats l).Perm l :=
  List.perm_insertionSort formatLe l

theorem sorted_le_getLast :
    ∀ (l : List Format) (h : l ≠ []), List.Sorted formatLe l →
      ∀ x ∈ l, formatLe x (l.getLast h) := by
  intro l
  induction l with
  | nil => intro h; exact absurd rfl h
  | cons a t ih =>
      intro h hs x hx
      rcases List.mem_cons.mp hx with rfl | hxt
      · cases t with
        | nil => simp [List.getLast, formatLe]
        | cons b t2 =>
            rw [List.getLast_cons (by simp)]
            exact (List.sorted_cons.mp hs).1 _ (List.getLast_mem (by simp))
      · cases t with
        | nil => simp at hxt
        | cons b t2 =>
            rw [List.getLast_cons (by simp)]
            exact ih (by simp) (List.sorted_cons.mp hs).2 x hxt

theorem all_formats_decompose (r : InfoResponse) :
    r.all_formats =
      (match r.streaming_data.formats with
       | some ps => sortFormats ps
       | none => []) ++ sortFormats r.streaming_data.adaptive_formats := by
  unfold InfoResponse.all_formats InfoResponse.formats InfoResponse.adaptive_formats
  cases r.streaming_data.formats <;> simp

/-! ### Claim theorems -/

/-- C1 counterexample: the claim that streams() flattens the AdaptationSets
of all Periods is false on the code.  On a parsed Manifest holding two
Periods with one AdaptationSet each, streams() yields one AdaptationSet
while the flattened document-order sequence has two. -/
theorem streams_two_periods_counterexample :
    (Manifest.streams mTwoPeriods).length = 1 ∧
      ((mTwoPeriods.periods.map Period.adaptation_sets).flatten).length = 2 ∧
      (Manifest.streams mTwoPeriods).length ≠
        ((mTwoPeriods.periods.map Period.adaptation_sets).flatten).length := by
  refine ⟨rfl, rfl, ?_⟩
  decide

/-- C1 (amended): streams() returns exactly the AdaptationSets of the first
Period, in document order, and the empty sequence when the Manifest has no
Period; AdaptationSets of later Periods are never included. -/
theorem streams_returns_first_period_sets (m : Manifest) :
    (∀ (p : Period) (ps : List Period), m.periods = p :: ps →
        Manifest.streams m = p.adaptation_sets) ∧
      (m.periods = [] → Manifest.streams m = []) := by
  constructor
  · intro p ps h
    unfold Manifest.streams
    rw [h]
  · intro h
    unfold Manifest.streams
    rw [h]

/-- C1 witness: instantiation at the two-Period manifest. -/
theorem streams_returns_first_period_sets_witness :
    Manifest.streams mTwoPeriods = [asetA] :=
  (streams_returns_first_period_sets mTwoPeriods).1 ⟨[asetA]⟩ [⟨[asetB]⟩] rfl

/-- C2: on a Representation whose SegmentList holds k media SegmentURLs,
segment_urls returns exactly k+1 entries: first base_url, slash,
initialization.source_url, then base_url, slash, media for each SegmentURL
in document order, built by plain concatenation with no re-sorting. -/
theorem segment_urls_init_then_media (r : Representation) (sl : SegmentList)
    (h : r.segment_list = some sl) :
    Representation.segment_urls r =
        (r.base_url ++ "/" ++ sl.initialization.source_url) ::
          sl.segment_urls.map (fun s => r.base_url ++ "/" ++ s.media) ∧
      (Representation.segment_urls r).length = sl.segment_urls.length + 1 := by
  have he : Representation.segment_urls r =
      (r.base_url ++ "/" ++ sl.initialization.source_url) ::
        sl.segment_urls.map (fun s => r.base_url ++ "/" ++ s.media) := by
    unfold Representation.segment_urls
    rw [h]
  refine ⟨he, ?_⟩
  rw [he]
  simp

/-- C2 witness: instantiation at repTwo, whose SegmentList holds two media
segments. -/
theorem segment_urls_init_then_media_witness :
    repTwo.segment_list = some slTwo ∧
      Representation.segment_urls repTwo =
        ["http://base/init.mp4", "http://base/seg1.m4s", "http://base/seg2.m4s"] ∧
      (Representation.segment_urls repTwo).length = 2 + 1 := by
  have h := segment_urls_init_then_media repTwo slTwo rfl
  exact ⟨rfl, h.1, h.2⟩

/-- C3: segment_urls cannot fail for SegmentBase or SegmentTemplate
addressing — its result type has no error alternative and its value does not
depend on the segment_base and segment_template fields at all, so no
UnsupportedAddressing error is ever produced (no ResolutionError type exists
anywhere in the repository).  This refutes the claimed behavior, which the
spec states as the intended one. -/
theorem segment_urls_independent_of_addressing
    (profiles : Option String) (w hgt : Option Nat) (sar : Option String)
    (fr : Option Nat) (mt : Option String) (bu : Option (List String))
    (subs : Option (List Representation)) (sb sb2 : Option SegmentURL)
    (sl : Option SegmentList) (st st2 : Option SegmentURL) (rid : String)
    (bw : Nat) (qr : Option Nat) (dep msid : Option String) :
    Representation.segment_urls
        (Representation.mk profiles w hgt sar fr mt bu subs sb sl st rid bw
          qr dep msid) =
      Representation.segment_urls
        (Representation.mk profiles w hgt sar fr mt bu subs sb2 sl st2 rid bw
          qr dep msid) := rfl

/-- C4: Format equality and ordering are itag-only — beq is true exactly when
the itags agree regardless of every other field, cmp answers Less and Equal
exactly per the itag order, and sorting any Format list yields an
itag-ascending permutation of it. -/
theorem format_eq_ord_itag_only :
    (∀ a b : Format, Format.beq a b = true ↔ a.itag = b.itag) ∧
      (∀ a b : Format, Format.cmp a b = Ordering.lt ↔ a.itag < b.itag) ∧
      (∀ a b : Format, Format.cmp a b = Ordering.eq ↔ a.itag = b.itag) ∧
      (∀ l : List Format,
        List.Sorted formatLe (sortFormats l) ∧ (sortFormats l).Perm l) := by
  refine ⟨?_, ?_, ?_, ?_⟩
  · intro a b
    simp [Format.beq]
  · intro a b
    exact Nat.compare_eq_lt
  · intro a b
    exact Nat.compare_eq_eq
  · intro l
    exact ⟨sortFormats_sorted l, sortFormats_perm l⟩

/-- C5: all_formats() is the itag-sorted progressive list followed by the
itag-sorted adaptive list when a progressive list is present, and the
itag-sorted adaptive list alone when it is absent; each half is a sorted
permutation of its source list. -/
theorem all_formats_progressive_then_adaptive (r : InfoResponse) :
    (∀ ps, r.streaming_data.formats = some ps →
        r.all_formats =
            sortFormats ps ++ sortFormats r.streaming_data.adaptive_formats ∧
          List.Sorted formatLe (sortFormats ps) ∧ (sortFormats ps).Perm ps) ∧
      (r.streaming_data.formats = none →
        r.all_formats = sortFormats r.streaming_data.adaptive_formats) ∧
      List.Sorted formatLe (sortFormats r.streaming_data.adaptive_formats) ∧
      (sortFormats r.streaming_data.adaptive_formats).Perm
        r.streaming_data.adaptive_formats := by
  refine ⟨?_, ?_, sortFormats_sorted _, sortFormats_perm _⟩
  · intro ps hps
    refine ⟨?_, sortFormats_sorted _, sortFormats_perm _⟩
    rw [all_formats_decompose r, hps]
  · intro hn
    rw [all_formats_decompose r, hn]
    simp

/-- C5 witness: respFive has 2 progressive and 3 adaptive formats;
all_formats is the 5-element sequence of the itag-sorted progressive pair
followed by the itag-sorted adaptive triple. -/
theorem all_formats_progressive_then_adaptive_witness :
    respFive.streaming_data.formats = some [fmt22, fmt18] ∧
      respFive.all_formats = [fmt18, fmt22, fmt136, fmt137, fmt140] ∧
      respFive.all_formats.length = 5 := by
  have h :=
    ((all_formats_progressive_then_adaptive respFive).1 [fmt22, fmt18] rfl).1
  refine ⟨rfl, h.trans (by decide), ?_⟩
  rw [h]
  decide

/-- C6 counterexample: the claim that the default selection is the
highest-itag format among all formats is false on the code.  In respMix the
highest itag (100) is progressive, yet the default selection is the itag-50
adaptive format, because the progressive half sorts first and last() takes
the end of the adaptive half. -/
theorem default_selection_not_global_max_counterexample :
    chosen none respMix.all_formats = some fmt50 ∧
      fmt100 ∈ respMix.all_formats ∧ fmt50.itag < fmt100.itag := by
  decide

/-- C6 (amended): with the -f flag omitted, the selected format is the last
element of the all_formats() sequence; whenever the adaptive list is
nonempty this is an adaptive format whose itag is greatest among the
adaptive formats — not necessarily the highest itag among all formats of
the video. -/
theorem default_selection_last_adaptive (r : InfoResponse)
    (h : r.streaming_data.adaptive_formats ≠ []) :
    chosen none r.all_formats = r.all_formats.getLast? ∧
      ∃ f, chosen none r.all_formats = some f ∧
        f ∈ r.streaming_data.adaptive_formats ∧
        ∀ g ∈ r.streaming_data.adaptive_formats, g.itag ≤ f.itag := by
  have hsa : sortFormats r.streaming_data.adaptive_formats ≠ [] := by
    intro hnil
    have hp := sortFormats_perm r.streaming_data.adaptive_formats
    rw [hnil] at hp
    exact h hp.symm.eq_nil
  refine ⟨rfl, (sortFormats r.streaming_data.adaptive_formats).getLast hsa,
    ?_, ?_, ?_⟩
  · show r.all_formats.getLast? = _
    rw [all_formats_decompose r, List.getLast?_append_of_ne_nil _ hsa]
    exact List.getLast?_eq_getLast _ hsa
  · exact (sortFormats_perm _).subset (List.getLast_mem hsa)
  · intro g hg
    exact sorted_le_getLast _ hsa (sortFormats_sorted _) g
      (((sortFormats_perm _).mem_iff).mpr hg)

/-- C6 witness: instantiation at respMix, whose adaptive list is nonempty. -/
theorem default_selection_last_adaptive_witness :
    respMix.streaming_data.adaptive_formats ≠ [] ∧
      (chosen none respMix.all_formats = respMix.all_formats.getLast? ∧
        ∃ f, chosen none respMix.all_formats = some f ∧
          f ∈ respMix.streaming_data.adaptive_formats ∧
          ∀ g ∈ respMix.streaming_data.adaptive_formats, g.itag ≤ f.itag) :=
  ⟨by decide, default_selection_last_adaptive respMix (by decide)⟩

/-- C7: for every transport and Representation, download writes to the sink
exactly the concatenation of all chunks of every segment URL, the URLs
processed strictly in order with all chunks of one URL before any chunk of
the next; and on the single-URL callback path, a supplied on_chunk that
succeeds is invoked exactly once per arrived chunk with that chunk's raw
bytes while the returned vector is the concatenation of the chunks in
arrival order. -/
theorem retrieval_order_and_callback :
    (∀ (transport : Transport) (r : Representation),
        Representation.download transport r [] =
          (r.segment_urls.map (fun u => (transport u).flatten)).flatten) ∧
      (∀ (E : Type) (transport : Transport) (onChunk : Chunk → Except E Unit)
          (f : Format), (∀ c, onChunk c = Except.ok ()) →
          Format.to_vec_callback transport onChunk f =
              Except.ok ((transport f.url).flatten) ∧
            Format.on_chunk_calls transport onChunk f = transport f.url) := by
  constructor
  · intro transport r
    unfold Representation.download
    rw [download_foldl_eq_join]
    simp
  · intro E transport onChunk f hok
    unfold Format.to_vec_callback Format.on_chunk_calls
    rw [to_vec_loop_ok onChunk hok]
    simp

/-- C7 witness: repSeg's three segments yield chunks A,B then C then D,E;
the sink receives A,B,C,D,E in that order, and on the callback path with
those five chunks on_chunk is invoked exactly 5 times with those payloads. -/
theorem retrieval_order_and_callback_witness :
    Representation.download trSeg repSeg [] = [65, 66, 67, 68, 69] ∧
      Format.to_vec_callback trFlat okCb fmtU = Except.ok [65, 66, 67, 68, 69] ∧
      Format.on_chunk_calls trFlat okCb fmtU = [[65], [66], [67], [68], [69]] ∧
      (Format.on_chunk_calls trFlat okCb fmtU).length = 5 := by
  have h1 := retrieval_order_and_callback.1 trSeg repSeg
  have h2 := retrieval_order_and_callback.2 String trFlat okCb fmtU
    (fun c => rfl)
  refine ⟨h1, h2.1, h2.2, ?_⟩
  rw [h2.2]
  rfl

/-- C8: if on_chunk fails on some chunk, to_vec_callback returns that error
immediately: on_chunk is invoked on the earlier chunks and the failing chunk
only and never again, no byte vector is returned, and the chunks after the
failing one play no part in the result. -/
theorem callback_error_fail_fast (E : Type) (transport : Transport)
    (onChunk : Chunk → Except E Unit) (f : Format) (pre : List Chunk)
    (c : Chunk) (rest : List Chunk) (e : E)
    (hurl : transport f.url = pre ++ c :: rest)
    (hok : ∀ x ∈ pre, onChunk x = Except.ok ())
    (hc : onChunk c = Except.error e) :
    Format.to_vec_callback transport onChunk f = Except.error e ∧
      Format.on_chunk_calls transport onChunk f = pre ++ [c] := by
  unfold Format.to_vec_callback Format.on_chunk_calls
  rw [hurl, to_vec_loop_error onChunk e pre c rest [] hok hc]
  exact ⟨rfl, rfl⟩

/-- C8 witness: errCb fails on the third chunk C; the operation returns the
error and on_chunk is invoked on A, B and the failing C only. -/
theorem callback_error_fail_fast_witness :
    Format.to_vec_callback trFlat errCb fmtU = Except.error "stop" ∧
      Format.on_chunk_calls trFlat errCb fmtU = [[65], [66], [67]] := by
  have h := callback_error_fail_fast String trFlat errCb fmtU [[65], [66]]
    [67] [[68], [69]] "stop" rfl ?_ rfl
  · exact ⟨h.1, h.2⟩
  · intro x hx
    rcases List.mem_cons.mp hx with rfl | hx2
    · rfl
    · rcases List.mem_cons.mp hx2 with rfl | hx3
      · rfl
      · simp at hx3

/-- C9 counterexample: the claim that the missing-itag error is reported
before any output file is created is false on the code.  Selecting the
nonexistent itag 999 produces an explicit log-and-exit-1 event sequence,
but the destination-file creation event precedes the error report. -/
theorem invalid_itag_file_created_first_counterexample :
    downloadOne (some "999") "mp4" respOnly50 =
        [Event.createFile "v9.mp4",
         Event.logError "Failed to find selected itag!",
         Event.exitProcess 1] ∧
      (downloadOne (some "999") "mp4" respOnly50).head? =
        some (Event.createFile "v9.mp4") := by
  decide

/-- C9 (amended): when the selected itag is not found among the video's
formats, the loop logs an explicit error and exits with code 1 — never a
panic — but only after the output file has been created: the create event is
emitted first and the report follows it. -/
theorem invalid_itag_error_after_create (flag : Option String) (ext : String)
    (r : InfoResponse) (h : chosen flag r.all_formats = none) :
    downloadOne flag ext r =
      [Event.createFile (r.video_details.video_id ++ "." ++ ext),
       Event.logError "Failed to find selected itag!",
       Event.exitProcess 1] := by
  unfold downloadOne
  rw [h]

/-- C9 witness: instantiation at respOnly50 with the missing itag 7. -/
theorem invalid_itag_error_after_create_witness :
    chosen (some "7") respOnly50.all_formats = none ∧
      downloadOne (some "7") "avi" respOnly50 =
        [Event.createFile "v9.avi",
         Event.logError "Failed to find selected itag!",
         Event.exitProcess 1] := by
  have h := invalid_itag_error_after_create (some "7") "avi" respOnly50
    (by decide)
  exact ⟨by decide, h⟩

/-- C10: to_vec returns exactly what to_vec_callback returns for any
callback that always answers Ok, and that shared result is the
concatenation of all received chunks in arrival order. -/
theorem to_vec_equiv_callback (E : Type) (transport : Transport) (f : Format)
    (cb : Chunk → Except E Unit) (hok : ∀ c, cb c = Except.ok ()) :
    Format.to_vec E transport f = Format.to_vec_callback transport cb f ∧
      Format.to_vec E transport f = Except.ok ((transport f.url).flatten) := by
  have hv : Format.to_vec E transport f =
      Except.ok ((transport f.url).flatten) := by
    unfold Format.to_vec Format.to_vec_callback
    rw [to_vec_loop_ok (fun _ => Except.ok ()) (fun c => rfl)]
    simp
  have hcb : Format.to_vec_callback transport cb f =
      Except.ok ((transport f.url).flatten) := by
    unfold Format.to_vec_callback
    rw [to_vec_loop_ok cb hok]
    simp
  exact ⟨hv.trans hcb.symm, hv⟩

/-- C10 witness: instantiation at the five-chunk transport. -/
theorem to_vec_equiv_callback_witness :
    Format.to_vec String trFlat fmtU = Format.to_vec_callback trFlat okCb fmtU ∧
      Format.to_vec String trFlat fmtU = Except.ok [65, 66, 67, 68, 69] := by
  have h := to_vec_equiv_callback String trFlat fmtU okCb (fun c => rfl)
  exact ⟨h.1, h.2⟩

end Maguro
